import Mathlib

/-!
Shallow embedding of the autonomous-agent core of the ml-platform repository
(`agent/core/decision_engine.py`, `diagnosis_engine.py`, `approval_manager.py`,
`executor.py`), together with theorems settling the specification claims about
it.

Modelling conventions:
* Wall-clock time (`datetime.now()`) is an explicit `Nat` parameter counting
  seconds; `timedelta(hours=24)` is `24 * 3600` seconds.
* `strftime("%Y%m%d%H%M%S")` renders a datetime at second resolution in a
  fixed, injective decimal format; it is modelled by `stampOf`, an injective
  decimal rendering of the second counter.
* Python's open `Dict[str, Any]` payloads (`details`, `parameters`) are
  association lists over `PyVal`; Python numbers (ints and the floats that
  appear in these payloads) are modelled as exact rationals.
* Fallible collaborators (the drift detector, executor handlers, the durable
  queue-file append) are modelled by `Except`/`Bool` parameters carrying the
  collaborator's outcome.
-/

namespace MLPlatform

/-- A Python value as stored in the open `details` / `parameters` maps. -/
inductive PyVal where
  | str (s : String)
  | num (q : Rat)
  | bool (b : Bool)
  | list (elems : List PyVal)
  | dict (fields : List (String × PyVal))
  | none

/-- `d.get(key, dflt)` on a Python dict modelled as an association list. -/
def pyGet (d : List (String × PyVal)) (key : String) (dflt : PyVal) : PyVal :=
  match d.find? (fun kv => kv.fst == key) with
  | Option.some kv => kv.snd
  | Option.none => dflt

/-- `d.get(key, dflt)` where the stored value is used as a number
(non-numeric payloads are outside the Python program's domain and fall back
to the default). -/
def getNumD (d : List (String × PyVal)) (key : String) (dflt : Rat) : Rat :=
  match pyGet d key (PyVal.num dflt) with
  | PyVal.num q => q
  | _ => dflt

/-- `d.get(key, dflt)` where the stored value is used as a string. -/
def getStrD (d : List (String × PyVal)) (key : String) (dflt : String) : String :=
  match pyGet d key (PyVal.str dflt) with
  | PyVal.str s => s
  | _ => dflt

/-- Rendering of a Python number inside an f-string (exact formatting
abstracted; the claims never constrain these message strings). -/
def pyShowNum (q : Rat) : String :=
  if q.den == 1 then toString q.num else toString q.num ++ "/" ++ toString q.den

/-- One decimal digit as a character. -/
def digitChar10 : Nat → Char
  | 0 => '0'
  | 1 => '1'
  | 2 => '2'
  | 3 => '3'
  | 4 => '4'
  | 5 => '5'
  | 6 => '6'
  | 7 => '7'
  | 8 => '8'
  | 9 => '9'
  | _ => 'X'

/-- Little-endian decimal digits of `n`, with explicit fuel so that the
function is structurally recursive (and hence evaluates inside the kernel). -/
def natDigitsRev : Nat → Nat → List Nat
  | 0, _ => []
  | fuel + 1, n => if n = 0 then [] else n % 10 :: natDigitsRev fuel (n / 10)

/-- Model of `datetime.now().strftime("%Y%m%d%H%M%S")`: an injective decimal
rendering of the second-resolution timestamp. -/
def stampOf (t : Nat) : String :=
  String.mk ((natDigitsRev t t).reverse.map digitChar10)

theorem natDigitsRev_eq_digits :
    ∀ (fuel n : Nat), n ≤ fuel → natDigitsRev fuel n = Nat.digits 10 n := by
  intro fuel
  induction fuel with
  | zero =>
    intro n hn
    have h0 : n = 0 := Nat.le_zero.mp hn
    rw [h0]
    simp [natDigitsRev]
  | succ fuel ih =>
    intro n hn
    by_cases h0 : n = 0
    · rw [h0]
      simp [natDigitsRev]
    · have hpos : 0 < n := Nat.pos_of_ne_zero h0
      have hdiv : n / 10 ≤ fuel := by
        have := Nat.div_lt_self hpos (by norm_num : 1 < 10)
        omega
      rw [natDigitsRev, if_neg h0,
        Nat.digits_def' (by norm_num : 1 < 10) hpos, ih (n / 10) hdiv]

theorem digitChar10_inj :
    ∀ d1 : Nat, d1 < 10 → ∀ d2 : Nat, d2 < 10 →
      digitChar10 d1 = digitChar10 d2 → d1 = d2 := by
  decide

theorem map_digitChar10_inj :
    ∀ l1 l2 : List Nat, (∀ x ∈ l1, x < 10) → (∀ x ∈ l2, x < 10) →
      l1.map digitChar10 = l2.map digitChar10 → l1 = l2 := by
  intro l1
  induction l1 with
  | nil =>
    intro l2 _ _ h
    cases l2 with
    | nil => rfl
    | cons b bs => simp at h
  | cons a as ih =>
    intro l2 h1 h2 h
    cases l2 with
    | nil => simp at h
    | cons b bs =>
      simp only [List.map_cons, List.cons.injEq] at h
      have ha : a < 10 := h1 a (List.mem_cons_self a as)
      have hb : b < 10 := h2 b (List.mem_cons_self b bs)
      have hab : a = b := digitChar10_inj a ha b hb h.1
      have htail : as = bs := by
        refine ih bs (fun x hx => h1 x (List.mem_cons_of_mem a hx))
          (fun x hx => h2 x (List.mem_cons_of_mem b hx)) h.2
      rw [hab, htail]

theorem stampOf_inj : ∀ t1 t2 : Nat, stampOf t1 = stampOf t2 → t1 = t2 := by
  intro t1 t2 h
  have hdata := congrArg String.data h
  simp only [stampOf, natDigitsRev_eq_digits t1 t1 (Nat.le_refl t1),
    natDigitsRev_eq_digits t2 t2 (Nat.le_refl t2)] at hdata
  have hrev : (Nat.digits 10 t1).reverse = (Nat.digits 10 t2).reverse := by
    refine map_digitChar10_inj _ _ ?_ ?_ hdata
    · intro x hx
      exact Nat.digits_lt_base (by norm_num) (List.mem_reverse.mp hx)
    · intro x hx
      exact Nat.digits_lt_base (by norm_num) (List.mem_reverse.mp hx)
  have hdig : Nat.digits 10 t1 = Nat.digits 10 t2 :=
    List.reverse_injective hrev
  exact Nat.digits_inj_iff.mp hdig

theorem string_data_append (a b : String) : (a ++ b).data = a.data ++ b.data := by
  cases a
  cases b
  rfl

theorem string_append_left_cancel (p a b : String) (h : p ++ a = p ++ b) : a = b := by
  have hdata := congrArg String.data h
  rw [string_data_append, string_data_append] at hdata
  have hab : a.data = b.data := List.append_cancel_left hdata
  cases a
  cases b
  exact congrArg String.mk hab

/-! ## Data model (`agent/core/diagnosis_engine.py`, `agent/core/decision_engine.py`) -/

/-- `Issue` — a detected problem record (`diagnosis_engine.py`, class Issue). -/
structure Issue where
  issue_type : String
  severity : String
  description : String
  details : List (String × PyVal)
  timestamp : Nat
  issue_id : String

/-- `Issue.__init__` with the creation time passed explicitly. -/
def mkIssue (issue_type severity description : String)
    (details : List (String × PyVal)) (now : Nat) : Issue :=
  { issue_type := issue_type
    severity := severity
    description := description
    details := details
    timestamp := now
    issue_id := "ISSUE-" ++ stampOf now }

/-- `Issue.to_dict` (the `isoformat` timestamp string is rendered by `stampOf`). -/
def Issue.to_dict (i : Issue) : List (String × PyVal) :=
  [("issue_id", PyVal.str i.issue_id),
   ("issue_type", PyVal.str i.issue_type),
   ("severity", PyVal.str i.severity),
   ("description", PyVal.str i.description),
   ("details", PyVal.dict i.details),
   ("timestamp", PyVal.str (stampOf i.timestamp))]

/-- `Action` — a recommended remediation (`decision_engine.py`, class Action). -/
structure Action where
  action_type : String
  risk_level : String
  description : String
  parameters : List (String × PyVal)
  reason : String
  related_issue : Option Issue
  estimated_impact : String
  requires_approval : Bool
  timestamp : Nat
  action_id : String
  status : String

/-- `Action.__init__` with the creation time passed explicitly:
`action_id = "ACT-" + now.strftime("%Y%m%d%H%M%S")`, `status = "pending"`. -/
def mkAction (action_type risk_level description : String)
    (parameters : List (String × PyVal)) (reason : String)
    (related_issue : Option Issue) (estimated_impact : String)
    (requires_approval : Bool) (now : Nat) : Action :=
  { action_type := action_type
    risk_level := risk_level
    description := description
    parameters := parameters
    reason := reason
    related_issue := related_issue
    estimated_impact := estimated_impact
    requires_approval := requires_approval
    timestamp := now
    action_id := "ACT-" ++ stampOf now
    status := "pending" }

/-! ## Decision engine (`agent/core/decision_engine.py`, class DecisionEngine) -/

/-- One entry of `DecisionEngine._define_action_templates`. -/
structure ActionTemplate where
  risk_level : String
  requires_approval : Bool
  estimated_impact : String

/-- `DecisionEngine._define_action_templates` (the handlers index only the
seven keys below; any other key would be a `KeyError` in the source). -/
def action_templates : String → ActionTemplate
  | "retrain_model" =>
    ⟨"medium", true, "Training time: 15-30 minutes, Resources: 2 CPU cores"⟩
  | "rollback_model" => ⟨"high", true, "Service downtime: 2-5 minutes"⟩
  | "send_alert" => ⟨"low", false, "Email/Slack notification sent to team"⟩
  | "adjust_threshold" => ⟨"low", false, "Minimal - threshold configuration update"⟩
  | "collect_diagnostics" => ⟨"low", false, "System diagnostics collected for analysis"⟩
  | "validate_data" => ⟨"low", false, "Data validation check, no changes made"⟩
  | "generate_report" => ⟨"low", false, "Performance report generated and emailed"⟩
  | _ => ⟨"", false, ""⟩

/-- `DecisionEngine._create_alert_action`; `message or default` follows
Python truthiness (an empty string also falls back to the default). -/
def DecisionEngine._create_alert_action (issue : Issue) (message : Option String)
    (priority : String) (now : Nat) : Action :=
  let template := action_templates "send_alert"
  let desc :=
    match message with
    | Option.none => "Alert: " ++ issue.description
    | Option.some m => if m == "" then "Alert: " ++ issue.description else m
  mkAction "send_alert" template.risk_level desc
    [("channels", PyVal.list [PyVal.str "email", PyVal.str "slack"]),
     ("priority", PyVal.str priority),
     ("issue_details", PyVal.dict issue.to_dict)]
    ("Notify team about " ++ issue.issue_type)
    (Option.some issue) template.estimated_impact template.requires_approval now

/-- `DecisionEngine._create_diagnostics_action`. -/
def DecisionEngine._create_diagnostics_action (issue : Issue) (now : Nat) : Action :=
  let template := action_templates "collect_diagnostics"
  mkAction "collect_diagnostics" template.risk_level
    "Collect system diagnostics for analysis"
    [("issue_type", PyVal.str issue.issue_type)]
    "Gather information for troubleshooting"
    (Option.some issue) template.estimated_impact template.requires_approval now

/-- `DecisionEngine._create_report_action`. -/
def DecisionEngine._create_report_action (issue : Issue) (report_type : String)
    (now : Nat) : Action :=
  let template := action_templates "generate_report"
  mkAction "generate_report" template.risk_level
    ("Generate " ++ report_type ++ " report")
    [("report_type", PyVal.str report_type), ("issue_id", PyVal.str issue.issue_id)]
    ("Document " ++ issue.issue_type ++ " for records")
    (Option.some issue) template.estimated_impact template.requires_approval now

/-- `DecisionEngine._handle_data_drift`. -/
def DecisionEngine._handle_data_drift (issue : Issue) (now : Nat) : List Action :=
  let severity := issue.severity
  let n_drifted := getNumD issue.details "n_drifted_features" 0
  let alert := DecisionEngine._create_alert_action issue
    (Option.some ("Data drift detected on " ++ pyShowNum n_drifted ++ " features"))
    "normal" now
  let retrain :=
    if severity == "high" || severity == "critical" || 5 ≤ n_drifted then
      let template := action_templates "retrain_model"
      [mkAction "retrain_model" template.risk_level
        ("Retrain model due to drift on " ++ pyShowNum n_drifted ++ " features")
        [("trigger", PyVal.str "data_drift"),
         ("drifted_features", pyGet issue.details "drifted_features" (PyVal.list [])),
         ("use_latest_data", PyVal.bool true)]
        ("Significant data drift detected (" ++ pyShowNum n_drifted ++ " features)")
        (Option.some issue) template.estimated_impact template.requires_approval now]
    else []
  [alert] ++ retrain ++ [DecisionEngine._create_report_action issue "drift_analysis" now]

/-- `DecisionEngine._handle_performance_degradation` (the `:.4f` float
formatting in messages is abstracted by `pyShowNum`). -/
def DecisionEngine._handle_performance_degradation (issue : Issue) (now : Nat) :
    List Action :=
  let metric := getStrD issue.details "metric" "unknown"
  let current := getNumD issue.details "current" 0
  let threshold := getNumD issue.details "threshold" 0
  let alert := DecisionEngine._create_alert_action issue
    (Option.some ("Performance degradation: " ++ metric ++ " = " ++ pyShowNum current
      ++ " (threshold: " ++ pyShowNum threshold ++ ")"))
    "high" now
  let diag := DecisionEngine._create_diagnostics_action issue now
  if issue.severity == "critical" then
    let template := action_templates "rollback_model"
    [alert, diag,
     mkAction "rollback_model" template.risk_level
       "Rollback to previous model version"
       [("trigger", PyVal.str "performance_degradation"),
        ("metric", PyVal.str metric),
        ("current_value", PyVal.num current),
        ("rollback_to", PyVal.str "previous_production")]
       ("Critical performance drop: " ++ metric ++ " below threshold")
       (Option.some issue) template.estimated_impact true now]
  else
    let template := action_templates "retrain_model"
    [alert, diag,
     mkAction "retrain_model" template.risk_level
       "Retrain model to recover performance"
       [("trigger", PyVal.str "performance_degradation"),
        ("metric", PyVal.str metric),
        ("use_latest_data", PyVal.bool true)]
       ("Performance below acceptable threshold: " ++ metric)
       (Option.some issue) template.estimated_impact template.requires_approval now]

/-- `DecisionEngine._handle_prediction_anomaly`. -/
def DecisionEngine._handle_prediction_anomaly (issue : Issue) (now : Nat) :
    List Action :=
  let template := action_templates "validate_data"
  [DecisionEngine._create_alert_action issue Option.none "normal" now,
   DecisionEngine._create_diagnostics_action issue now,
   mkAction "validate_data" template.risk_level
     "Validate recent input data for anomalies"
     [("validation_type", PyVal.str "schema_and_distribution")]
     "Unusual prediction patterns detected"
     (Option.some issue) template.estimated_impact template.requires_approval now]

/-- `DecisionEngine._handle_low_confidence` (the `:.2%` float formatting in
the reason string is abstracted by `pyShowNum`). -/
def DecisionEngine._handle_low_confidence (issue : Issue) (now : Nat) : List Action :=
  let frac := getNumD issue.details "ratio" 0
  let retrain :=
    if 0.4 < frac then
      let template := action_templates "retrain_model"
      [mkAction "retrain_model" template.risk_level
        "Retrain model to improve confidence"
        [("trigger", PyVal.str "low_confidence"),
         ("low_confidence_ratio", PyVal.num frac)]
        ("High proportion of low-confidence predictions: " ++ pyShowNum frac)
        (Option.some issue) template.estimated_impact template.requires_approval now]
    else []
  [DecisionEngine._create_alert_action issue Option.none "normal" now] ++ retrain

/-- `DecisionEngine._handle_data_quality`. -/
def DecisionEngine._handle_data_quality (issue : Issue) (now : Nat) : List Action :=
  let template := action_templates "validate_data"
  [DecisionEngine._create_alert_action issue Option.none "normal" now,
   mkAction "validate_data" template.risk_level
     "Run comprehensive data quality validation"
     [("validation_type", PyVal.str "full")]
     "Data quality issues detected"
     (Option.some issue) template.estimated_impact template.requires_approval now]

/-- `DecisionEngine.decide_action_for_issue`. -/
def DecisionEngine.decide_action_for_issue (issue : Issue) (now : Nat) : List Action :=
  if issue.issue_type == "data_drift" then
    DecisionEngine._handle_data_drift issue now
  else if issue.issue_type == "performance_degradation" then
    DecisionEngine._handle_performance_degradation issue now
  else if issue.issue_type == "prediction_anomaly" then
    DecisionEngine._handle_prediction_anomaly issue now
  else if issue.issue_type == "low_confidence" then
    DecisionEngine._handle_low_confidence issue now
  else if issue.issue_type == "data_quality" then
    DecisionEngine._handle_data_quality issue now
  else
    [DecisionEngine._create_alert_action issue Option.none "normal" now,
     DecisionEngine._create_diagnostics_action issue now]

/-- `DecisionEngine.recommend_actions`: concatenate the per-issue
recommendations, then apply the auto-approval pass
(`requires_approval := false` on every low-risk action when
`auto_approve_low_risk` is set). -/
def DecisionEngine.recommend_actions (auto_approve_low_risk : Bool)
    (issues : List Issue) (now : Nat) : List Action :=
  let all_actions := issues.flatMap (fun issue => DecisionEngine.decide_action_for_issue issue now)
  all_actions.map (fun action =>
    if auto_approve_low_risk && action.risk_level == "low" then
      { action with requires_approval := false }
    else action)

/-! ## Diagnosis engine (`agent/core/diagnosis_engine.py`, class DiagnosisEngine) -/

/-- `DiagnosisEngine.check_data_drift`. The drift collaborator
(`initialize_drift_detector` plus `drift_detector.detect_drift`) is external;
its outcome is passed in: `Except.error` when the collaborator raised (the
`except` branch of the source), `Except.ok (drift_detected, drift_summary)`
otherwise. -/
def DiagnosisEngine.check_data_drift
    (detect_outcome : Except String (Bool × List (String × PyVal))) (now : Nat) :
    List Issue :=
  match detect_outcome with
  | Except.error _ => []
  | Except.ok (drift_detected, drift_summary) =>
    if drift_detected then
      let n_drifted := getNumD drift_summary "n_drifted_features" 0
      let severity :=
        if 5 ≤ n_drifted then "high"
        else if 3 ≤ n_drifted then "medium"
        else "low"
      [mkIssue "data_drift" severity
        ("Data drift detected on " ++ pyShowNum n_drifted ++ " features")
        drift_summary now]
    else []

/-! ## Action executor (`agent/core/executor.py`) -/

/-- `ExecutionResult` (`executor.py`, class ExecutionResult). -/
structure ExecutionResult where
  success : Bool
  message : String
  details : List (String × PyVal)
  error : Option String
  timestamp : Nat

/-- One element of `ActionExecutor.execution_history`
(`{"action": action.to_dict(), "result": result.to_dict()}`; the snapshots
are modelled by the records themselves). -/
structure HistoryEntry where
  action : Action
  result : ExecutionResult

/-- The keys of `executor_map`, the fixed dispatch table in
`ActionExecutor.execute`. -/
def executor_map_types : List String :=
  ["retrain_model", "rollback_model", "send_alert", "adjust_threshold",
   "collect_diagnostics", "validate_data", "generate_report"]

/-- `ActionExecutor.execute`. The executor's state is `(dry_run, history)`;
the invoked handler is external code whose outcome is passed in
(`Except.ok result` when `executor_func(action)` returned,
`Except.error e` when it raised). Returns the `ExecutionResult`, the action
as left after the call (its `status` is the only field the source mutates),
and the new history. -/
def ActionExecutor.execute (dry_run : Bool) (history : List HistoryEntry)
    (action : Action) (handler_outcome : Except String ExecutionResult)
    (now : Nat) : ExecutionResult × Action × List HistoryEntry :=
  if dry_run then
    ({ success := true
       message := "[DRY RUN] Would execute: " ++ action.description
       details := [("dry_run", PyVal.bool true)]
       error := Option.none
       timestamp := now },
     action, history)
  else if executor_map_types.contains action.action_type then
    match handler_outcome with
    | Except.ok result =>
      let action1 := { action with status := if result.success then "completed" else "failed" }
      (result, action1, history ++ [{ action := action1, result := result }])
    | Except.error e =>
      let result : ExecutionResult :=
        { success := false
          message := "Execution error: " ++ e
          details := []
          error := Option.some e
          timestamp := now }
      let action1 := { action with status := "failed" }
      (result, action1, history ++ [{ action := action1, result := result }])
  else
    let result : ExecutionResult :=
      { success := false
        message := "Unknown action type: " ++ action.action_type
        details := []
        error := Option.some "Executor not implemented"
        timestamp := now }
    (result, action, history ++ [{ action := action, result := result }])

/-! ## Approval manager (`agent/core/approval_manager.py`) -/

/-- `ApprovalRequest` (`approval_manager.py`, class ApprovalRequest). -/
structure ApprovalRequest where
  action : Action
  request_id : String
  created_at : Nat
  status : String
  reviewed_by : Option String
  reviewed_at : Option Nat
  review_comment : Option String
  expires_at : Nat

/-- `ApprovalRequest.__init__` with the creation time passed explicitly:
`status = "pending"`, `expires_at = created_at + timedelta(hours=24)`. -/
def mkApprovalRequest (action : Action) (now : Nat) : ApprovalRequest :=
  { action := action
    request_id := "APR-" ++ stampOf now
    created_at := now
    status := "pending"
    reviewed_by := Option.none
    reviewed_at := Option.none
    review_comment := Option.none
    expires_at := now + 24 * 3600 }

/-- `ApprovalRequest.approve`. -/
def ApprovalRequest.approve (request : ApprovalRequest) (reviewer : String)
    (comment : Option String) (now : Nat) : ApprovalRequest :=
  { request with
    status := "approved"
    reviewed_by := Option.some reviewer
    reviewed_at := Option.some now
    review_comment := comment }

/-- `ApprovalRequest.reject`. -/
def ApprovalRequest.reject (request : ApprovalRequest) (reviewer : String)
    (comment : Option String) (now : Nat) : ApprovalRequest :=
  { request with
    status := "rejected"
    reviewed_by := Option.some reviewer
    reviewed_at := Option.some now
    review_comment := comment }

/-- `ApprovalRequest.is_expired`: `datetime.now() > self.expires_at`. -/
def ApprovalRequest.is_expired (request : ApprovalRequest) (now : Nat) : Bool :=
  request.expires_at < now

/-- `ApprovalManager.submit_for_approval`. The manager's in-memory state is
`pending_requests`; `queue_file` is the durable JSONL queue file (snapshots
modelled by the request records). `save_fails` is true when the file append
inside `_save_request` raises — that exception is caught inside
`_save_request`, so it only suppresses the file append. Returns
`(request, pending_requests, queue_file)` after the call; note the request
is appended to the in-memory list before `_save_request` runs. -/
def ApprovalManager.submit_for_approval (pending_requests : List ApprovalRequest)
    (queue_file : List ApprovalRequest) (action : Action) (now : Nat)
    (save_fails : Bool) :
    ApprovalRequest × List ApprovalRequest × List ApprovalRequest :=
  let request := mkApprovalRequest action now
  (request,
   pending_requests ++ [request],
   if save_fails then queue_file else queue_file ++ [request])

/-- `ApprovalManager.get_pending_requests`. When `include_expired` is false
the in-memory list is first purged down to unexpired, still-pending
requests; the returned value filters the (possibly purged) list to
`status == "pending"`. Returns `(result, pending_requests)` after the call. -/
def ApprovalManager.get_pending_requests (pending_requests : List ApprovalRequest)
    (now : Nat) (include_expired : Bool) :
    List ApprovalRequest × List ApprovalRequest :=
  let pending1 :=
    if include_expired then pending_requests
    else pending_requests.filter
      (fun req => !req.is_expired now && req.status == "pending")
  (pending1.filter (fun req => req.status == "pending"), pending1)

/-- `ApprovalManager.approve_request`: walk the in-memory list; on the first
request with a matching id, mark it `"expired"` and return failure if it has
expired, otherwise call `ApprovalRequest.approve` and return success; return
failure if no id matches. (`_save_request` here only appends to the durable
log, which no claim about this operation depends on.) Returns
`(result, pending_requests)` after the call. -/
def ApprovalManager.approve_request (pending_requests : List ApprovalRequest)
    (now : Nat) (request_id reviewer : String) (comment : Option String) :
    Bool × List ApprovalRequest :=
  match pending_requests with
  | [] => (false, [])
  | request :: rest =>
    if request.request_id == request_id then
      if request.is_expired now then
        (false, { request with status := "expired" } :: rest)
      else
        (true, request.approve reviewer comment now :: rest)
    else
      let tail_result := ApprovalManager.approve_request rest now request_id reviewer comment
      (tail_result.fst, request :: tail_result.snd)

/-- `ApprovalManager.reject_request`: like `approve_request` but with no
expiry check — the first matching request is unconditionally rejected. -/
def ApprovalManager.reject_request (pending_requests : List ApprovalRequest)
    (now : Nat) (request_id reviewer : String) (comment : Option String) :
    Bool × List ApprovalRequest :=
  match pending_requests with
  | [] => (false, [])
  | request :: rest =>
    if request.request_id == request_id then
      (true, request.reject reviewer comment now :: rest)
    else
      let tail_result := ApprovalManager.reject_request rest now request_id reviewer comment
      (tail_result.fst, request :: tail_result.snd)

/-- `ApprovalManager.get_approved_actions`: collect the actions of all
`"approved"` requests, then drop every `"approved"` or `"rejected"` request
from the in-memory list. Returns `(approved, pending_requests)` after the
call. -/
def ApprovalManager.get_approved_actions (pending_requests : List ApprovalRequest) :
    List Action × List ApprovalRequest :=
  ((pending_requests.filter (fun req => req.status == "approved")).map
     (fun req => req.action),
   pending_requests.filter
     (fun req => !(req.status == "approved" || req.status == "rejected")))

/-! ## Concrete objects used by counterexamples and witnesses -/

/-- A medium-risk action as the decision engine would create it. -/
def sampleAction : Action :=
  mkAction "retrain_model" "medium" "Retrain model" [] "reason"
    Option.none "impact" true 0

/-- A request for `sampleAction` that a reviewer has already approved. -/
def approvedRequest : ApprovalRequest :=
  { mkApprovalRequest sampleAction 0 with status := "approved" }

/-- Claim C9: with `dry_run = true`, `execute` returns a successful
`ExecutionResult` for every Action — dispatchable or not — and leaves both
the Action (in particular its `status` field) and the execution history
untouched. -/
theorem dry_run_execute_is_pure :
    ∀ (history : List HistoryEntry) (action : Action)
      (handler_outcome : Except String ExecutionResult) (now : Nat),
      (ActionExecutor.execute true history action handler_outcome now).1.success = true
      ∧ (ActionExecutor.execute true history action handler_outcome now).2.1 = action
      ∧ (ActionExecutor.execute true history action handler_outcome now).2.2 = history :=
  fun _ _ _ _ => ⟨rfl, rfl, rfl⟩

/-- Claim C10: `submit_for_approval` never propagates an error: even when the
durable queue-file append raises (`save_fails = true`, caught inside
`_save_request`), the returned request has status `"pending"`, it is
appended to the in-memory pending list, and both the returned request and
the resulting pending list are identical to the no-failure run. -/
theorem submit_for_approval_total :
    ∀ (st file : List ApprovalRequest) (action : Action) (t : Nat),
      (ApprovalManager.submit_for_approval st file action t true).1.status = "pending"
      ∧ (ApprovalManager.submit_for_approval st file action t true).2.1
          = st ++ [(ApprovalManager.submit_for_approval st file action t true).1]
      ∧ (ApprovalManager.submit_for_approval st file action t true).1
          = (ApprovalManager.submit_for_approval st file action t false).1
      ∧ (ApprovalManager.submit_for_approval st file action t true).2.1
          = (ApprovalManager.submit_for_approval st file action t false).2.1 :=
  fun _ _ _ _ => ⟨rfl, rfl, rfl, rfl⟩

/-- Claim C3: `get_approved_actions` returns the Action of every approved
request, drops every approved or rejected request from the pending list,
and an immediate second call returns the empty list: each approved Action
is handed to the caller exactly once. -/
theorem get_approved_actions_drain :
    ∀ st : List ApprovalRequest,
      (∀ r ∈ st, r.status = "approved" →
        r.action ∈ (ApprovalManager.get_approved_actions st).1)
      ∧ (∀ r ∈ (ApprovalManager.get_approved_actions st).2,
          r.status ≠ "approved" ∧ r.status ≠ "rejected")
      ∧ (ApprovalManager.get_approved_actions
          (ApprovalManager.get_approved_actions st).2).1 = [] := by
  intro st
  refine ⟨?_, ?_, ?_⟩
  · intro r hr hstatus
    exact List.mem_map.mpr
      ⟨r, List.mem_filter.mpr ⟨hr, by simp [hstatus]⟩, rfl⟩
  · intro r hr
    have hpred := (List.mem_filter.mp hr).2
    simp only [Bool.not_eq_eq_eq_not, Bool.not_true, Bool.or_eq_false_iff,
      beq_eq_false_iff_ne, ne_eq] at hpred
    exact hpred
  · simp only [ApprovalManager.get_approved_actions, List.map_eq_nil_iff]
    rw [List.filter_eq_nil_iff]
    intro r hr
    have hpred := (List.mem_filter.mp hr).2
    simp only [Bool.not_eq_eq_eq_not, Bool.not_true, Bool.or_eq_false_iff] at hpred
    simp [hpred.1]

/-- Witness for C3 at a one-element queue holding an approved request. -/
theorem get_approved_actions_drain_witness :
    sampleAction ∈ (ApprovalManager.get_approved_actions [approvedRequest]).1 :=
  (get_approved_actions_drain [approvedRequest]).1 approvedRequest
    (List.mem_singleton.mpr rfl) rfl

/-- Claim C4: under the default auto-approve-low-risk policy, every action
returned by `recommend_actions` whose `risk_level` is `"low"` has
`requires_approval = false`, whatever its template said. -/
theorem recommend_actions_auto_approves_low_risk :
    ∀ (issues : List Issue) (now : Nat) (a : Action),
      a ∈ DecisionEngine.recommend_actions true issues now →
      a.risk_level = "low" → a.requires_approval = false := by
  intro issues now a ha hrisk
  simp only [DecisionEngine.recommend_actions, List.mem_map] at ha
  obtain ⟨b, hb, rfl⟩ := ha
  by_cases h : (b.risk_level == "low") = true
  · simp [h]
  · simp only [Bool.true_and, h, if_neg] at hrisk ⊢
    · exact absurd hrisk (by simpa using h)

/-- An issue whose type matches no handler branch: the default branch emits
a low-risk alert plus a diagnostics action. -/
def oddIssue : Issue := mkIssue "weird" "low" "odd" [] 0

/-- Witness for C4: the alert emitted for `oddIssue` is low-risk and ends up
with `requires_approval = false`. -/
theorem recommend_actions_auto_approves_low_risk_witness :
    (DecisionEngine._create_alert_action oddIssue Option.none "normal" 0).requires_approval
      = false := by
  refine recommend_actions_auto_approves_low_risk [oddIssue] 0 _ ?_ rfl
  have h : DecisionEngine.recommend_actions true [oddIssue] 0
      = DecisionEngine._create_alert_action oddIssue Option.none "normal" 0
        :: [DecisionEngine._create_diagnostics_action oddIssue 0] := rfl
  rw [h]
  exact List.mem_cons_self _ _

/-- The data-drift issue of the spec's concrete scenario 1: severity high,
6 drifted features. -/
def specIssue : Issue :=
  mkIssue "data_drift" "high" "Data drift detected"
    [("n_drifted_features", PyVal.num 6),
     ("drifted_features", PyVal.list [PyVal.str "chol", PyVal.str "trestbps"])] 0

/-- Claim C6: for a `data_drift` issue the decision engine always emits
`send_alert` then (exactly when severity is high/critical or the drifted
feature count is at least 5) `retrain_model`, then `generate_report`; any
emitted `retrain_model` is medium-risk and requires approval; on the spec's
concrete scenario (severity high, 6 drifted features) the result is exactly
those three actions in order. -/
theorem data_drift_actions :
    ∀ (issue : Issue) (now : Nat),
      issue.issue_type = "data_drift" →
      ((DecisionEngine.decide_action_for_issue issue now).map (fun a => a.action_type)
        = if issue.severity == "high" || issue.severity == "critical"
             || 5 ≤ getNumD issue.details "n_drifted_features" 0
          then ["send_alert", "retrain_model", "generate_report"]
          else ["send_alert", "generate_report"])
      ∧ (∀ a ∈ DecisionEngine.decide_action_for_issue issue now,
          a.action_type = "retrain_model" →
            a.risk_level = "medium" ∧ a.requires_approval = true)
      ∧ ((DecisionEngine.decide_action_for_issue specIssue now).map
          (fun a => (a.action_type, a.risk_level, a.requires_approval))
         = [("send_alert", "low", false), ("retrain_model", "medium", true),
            ("generate_report", "low", false)]) := by
  intro issue now htype
  have hd : DecisionEngine.decide_action_for_issue issue now
      = DecisionEngine._handle_data_drift issue now := by
    simp [DecisionEngine.decide_action_for_issue, htype]
  refine ⟨?_, ?_, ?_⟩
  · rw [hd]
    by_cases hc : (issue.severity == "high" || issue.severity == "critical"
        || decide (5 ≤ getNumD issue.details "n_drifted_features" 0)) = true
    · simp [DecisionEngine._handle_data_drift, hc,
        DecisionEngine._create_alert_action, DecisionEngine._create_report_action,
        mkAction, action_templates]
    · simp [DecisionEngine._handle_data_drift, hc,
        DecisionEngine._create_alert_action, DecisionEngine._create_report_action,
        mkAction, action_templates]
  · intro a ha hat
    rw [hd] at ha
    simp only [DecisionEngine._handle_data_drift, List.mem_append,
      List.mem_singleton] at ha
    rcases ha with (ha | ha) | ha
    · rw [ha] at hat
      exact absurd hat (by simp [DecisionEngine._create_alert_action, mkAction])
    · by_cases hc : (issue.severity == "high" || issue.severity == "critical"
          || decide (5 ≤ getNumD issue.details "n_drifted_features" 0)) = true
      · rw [if_pos hc] at ha
        simp only [List.mem_singleton] at ha
        rw [ha]
        simp [mkAction, action_templates]
      · rw [if_neg hc] at ha
        simp at ha
    · rw [ha] at hat
      exact absurd hat (by simp [DecisionEngine._create_report_action, mkAction])
  · rfl

/-- Witness for C6: the concrete scenario instantiated (issue type
hypothesis discharged by `rfl`). -/
theorem data_drift_actions_witness :
    (DecisionEngine.decide_action_for_issue specIssue 0).map
        (fun a => (a.action_type, a.risk_level, a.requires_approval))
      = [("send_alert", "low", false), ("retrain_model", "medium", true),
         ("generate_report", "low", false)] :=
  (data_drift_actions specIssue 0 rfl).2.2

/-- Claim C7: `check_data_drift` emits at most one issue; a collaborator
error yields the empty list (the exception is caught); no drift yields the
empty list; and on detected drift the single issue's severity follows the
policy: at least 5 drifted features → high, at least 3 → medium, otherwise
low. -/
theorem check_data_drift_policy :
    ∀ (detect_outcome : Except String (Bool × List (String × PyVal))) (now : Nat),
      (DiagnosisEngine.check_data_drift detect_outcome now).length ≤ 1
      ∧ (∀ e, detect_outcome = Except.error e →
          DiagnosisEngine.check_data_drift detect_outcome now = [])
      ∧ (∀ summary, detect_outcome = Except.ok (false, summary) →
          DiagnosisEngine.check_data_drift detect_outcome now = [])
      ∧ (∀ summary, detect_outcome = Except.ok (true, summary) →
          (DiagnosisEngine.check_data_drift detect_outcome now).map
              (fun i => i.severity)
            = [if 5 ≤ getNumD summary "n_drifted_features" 0 then "high"
               else if 3 ≤ getNumD summary "n_drifted_features" 0 then "medium"
               else "low"]) := by
  intro detect_outcome now
  refine ⟨?_, ?_, ?_, ?_⟩
  · match detect_outcome with
    | Except.error e => simp [DiagnosisEngine.check_data_drift]
    | Except.ok (flag, summary) =>
      cases flag <;> simp [DiagnosisEngine.check_data_drift]
  · intro e he
    rw [he]
    rfl
  · intro summary hs
    rw [hs]
    rfl
  · intro summary hs
    rw [hs]
    rfl

/-- Witness for C7 at a concrete detected-drift outcome with 4 drifted
features (severity medium). -/
theorem check_data_drift_policy_witness :
    (DiagnosisEngine.check_data_drift
        (Except.ok (true, [("n_drifted_features", PyVal.num 4)])) 0).map
        (fun i => i.severity)
      = [if 5 ≤ getNumD [("n_drifted_features", PyVal.num 4)] "n_drifted_features" 0
         then "high"
         else if 3 ≤ getNumD [("n_drifted_features", PyVal.num 4)] "n_drifted_features" 0
         then "medium"
         else "low"] :=
  (check_data_drift_policy (Except.ok (true, [("n_drifted_features", PyVal.num 4)])) 0).2.2.2
    [("n_drifted_features", PyVal.num 4)] rfl

/-- Helper: `approve_request` on a list ending in a freshly-submitted request
whose expiry has passed walks past the (id-fresh) prefix, marks the request
`"expired"` and returns failure. -/
theorem approve_request_expired_aux :
    ∀ (st : List ApprovalRequest) (action : Action) (t now2 : Nat)
      (reviewer : String) (comment : Option String),
      t + 24 * 3600 < now2 →
      (∀ r ∈ st, r.request_id ≠ (mkApprovalRequest action t).request_id) →
      ApprovalManager.approve_request (st ++ [mkApprovalRequest action t]) now2
          (mkApprovalRequest action t).request_id reviewer comment
        = (false, st ++ [{ mkApprovalRequest action t with status := "expired" }]) := by
  intro st action t now2 reviewer comment hlate hfresh
  induction st with
  | nil =>
    have hexp : (mkApprovalRequest action t).is_expired now2 = true := by
      simp [ApprovalRequest.is_expired, mkApprovalRequest, hlate]
    simp [ApprovalManager.approve_request, hexp]
  | cons r rest ih =>
    have hne : (r.request_id == (mkApprovalRequest action t).request_id) = false :=
      beq_eq_false_iff_ne.mpr (hfresh r (List.mem_cons_self r rest))
    have ihr := ih (fun x hx => hfresh x (List.mem_cons_of_mem r hx))
    simp [ApprovalManager.approve_request, hne, ihr]

/-- Claim C5: a request built by `submit_for_approval` has
`expires_at = created_at + 24h` exactly and status `"pending"`; before the
expiry instant it is returned by `get_pending_requests` (default arguments);
past the expiry instant it is excluded from `get_pending_requests`, and
`approve_request` on its id returns `false` while marking the request
`"expired"` instead of approving it. -/
theorem submit_roundtrip_and_expiry :
    ∀ (st file : List ApprovalRequest) (action : Action) (t : Nat) (sf : Bool)
      (reviewer : String) (comment : Option String),
      (ApprovalManager.submit_for_approval st file action t sf).1
          = mkApprovalRequest action t
      ∧ (mkApprovalRequest action t).expires_at
          = (mkApprovalRequest action t).created_at + 24 * 3600
      ∧ (mkApprovalRequest action t).status = "pending"
      ∧ (∀ now1, now1 ≤ t + 24 * 3600 →
          mkApprovalRequest action t ∈
            (ApprovalManager.get_pending_requests
              (ApprovalManager.submit_for_approval st file action t sf).2.1
              now1 false).1)
      ∧ (∀ now2, t + 24 * 3600 < now2 →
          mkApprovalRequest action t ∉
            (ApprovalManager.get_pending_requests
              (ApprovalManager.submit_for_approval st file action t sf).2.1
              now2 false).1)
      ∧ (∀ now2, t + 24 * 3600 < now2 →
          (∀ r ∈ st, r.request_id ≠ (mkApprovalRequest action t).request_id) →
          (ApprovalManager.approve_request
              (ApprovalManager.submit_for_approval st file action t sf).2.1
              now2 (mkApprovalRequest action t).request_id reviewer comment).fst
            = false
          ∧ (ApprovalManager.approve_request
              (ApprovalManager.submit_for_approval st file action t sf).2.1
              now2 (mkApprovalRequest action t).request_id reviewer comment).snd
            = st ++ [{ mkApprovalRequest action t with status := "expired" }]) := by
  intro st file action t sf reviewer comment
  refine ⟨rfl, rfl, rfl, ?_, ?_, ?_⟩
  · intro now1 h1
    refine List.mem_filter.mpr ⟨List.mem_filter.mpr ⟨?_, ?_⟩, ?_⟩
    · exact List.mem_append_right st (List.mem_singleton.mpr rfl)
    · simp only [ApprovalRequest.is_expired, mkApprovalRequest, Bool.and_eq_true,
        Bool.not_eq_true', decide_eq_false_iff_not, beq_iff_eq]
      exact ⟨by omega, trivial⟩
    · rfl
  · intro now2 h2 hmem
    have hinner := (List.mem_filter.mp hmem).1
    have hpred := (List.mem_filter.mp hinner).2
    simp only [ApprovalRequest.is_expired, mkApprovalRequest, Bool.and_eq_true,
      Bool.not_eq_true', decide_eq_false_iff_not] at hpred
    exact absurd h2 hpred.1
  · intro now2 h2 hfresh
    have haux := approve_request_expired_aux st action t now2 reviewer comment h2 hfresh
    exact ⟨by rw [show (ApprovalManager.submit_for_approval st file action t sf).2.1
        = st ++ [mkApprovalRequest action t] from rfl, haux],
      by rw [show (ApprovalManager.submit_for_approval st file action t sf).2.1
        = st ++ [mkApprovalRequest action t] from rfl, haux]⟩

/-- Witness for C5: from an empty queue, submitting at time 0 and calling
`approve_request` one second after the 24-hour expiry returns `false`. -/
theorem submit_roundtrip_and_expiry_witness :
    (ApprovalManager.approve_request
        (ApprovalManager.submit_for_approval [] [] sampleAction 0 false).2.1
        86401 (mkApprovalRequest sampleAction 0).request_id "alice" Option.none).fst
      = false :=
  ((submit_roundtrip_and_expiry [] [] sampleAction 0 false "alice" Option.none).2.2.2.2.2
    86401 (by norm_num) (fun r hr => absurd hr (List.not_mem_nil r))).1

/-- Counterexample to claim C1 as stated: starting from an empty manager,
submit at time 3, approve at time 4 (request status becomes `"approved"`,
a terminal state), then call `reject_request` at time 5 — the status of the
already-approved request changes to `"rejected"`, so a sequence of the
listed operations does change the status of an approved request. -/
theorem approval_terminal_state_escapes :
    ((ApprovalManager.approve_request
        (ApprovalManager.submit_for_approval [] [] sampleAction 3 false).2.1
        4 "APR-3" "alice" Option.none).snd.map (fun r => r.status) = ["approved"])
    ∧ ((ApprovalManager.reject_request
        (ApprovalManager.approve_request
          (ApprovalManager.submit_for_approval [] [] sampleAction 3 false).2.1
          4 "APR-3" "alice" Option.none).snd
        5 "APR-3" "bob" Option.none).snd.map (fun r => r.status) = ["rejected"]) := by
  constructor
  · rfl
  · rfl

/-- Helper: one `approve_request` call leaves every request unchanged except
that the matched one is either marked `"expired"` (when past expiry) or
approved. -/
theorem approve_request_forall2 :
    ∀ (st : List ApprovalRequest) (now : Nat) (request_id reviewer : String)
      (comment : Option String),
      List.Forall₂ (fun r r1 => r1 = r
          ∨ (r.is_expired now = true ∧ r1 = { r with status := "expired" })
          ∨ (r.is_expired now = false ∧ r1 = r.approve reviewer comment now))
        st (ApprovalManager.approve_request st now request_id reviewer comment).snd := by
  intro st now request_id reviewer comment
  induction st with
  | nil => exact List.Forall₂.nil
  | cons r rest ih =>
    by_cases hid : (r.request_id == request_id) = true
    · by_cases hexp : r.is_expired now = true
      · simp only [ApprovalManager.approve_request, hid, hexp, if_true]
        exact List.Forall₂.cons (Or.inr (Or.inl ⟨hexp, rfl⟩))
          (List.forall₂_same.mpr (fun a _ => Or.inl rfl))
      · have hexp2 : r.is_expired now = false := by
          simpa using hexp
        simp only [ApprovalManager.approve_request, hid, hexp2, if_true,
          Bool.false_eq_true, if_false]
        exact List.Forall₂.cons (Or.inr (Or.inr ⟨hexp2, rfl⟩))
          (List.forall₂_same.mpr (fun a _ => Or.inl rfl))
    · have hid2 : (r.request_id == request_id) = false := by
        simpa using hid
      simp only [ApprovalManager.approve_request, hid2, Bool.false_eq_true, if_false]
      exact List.Forall₂.cons (Or.inl rfl) ih

/-- Helper: one `reject_request` call leaves every request unchanged except
that the matched one is rejected (no status or expiry guard). -/
theorem reject_request_forall2 :
    ∀ (st : List ApprovalRequest) (now : Nat) (request_id reviewer : String)
      (comment : Option String),
      List.Forall₂ (fun r r1 => r1 = r ∨ r1 = r.reject reviewer comment now)
        st (ApprovalManager.reject_request st now request_id reviewer comment).snd := by
  intro st now request_id reviewer comment
  induction st with
  | nil => exact List.Forall₂.nil
  | cons r rest ih =>
    by_cases hid : (r.request_id == request_id) = true
    · simp only [ApprovalManager.reject_request, hid, if_true]
      exact List.Forall₂.cons (Or.inr rfl)
        (List.forall₂_same.mpr (fun a _ => Or.inl rfl))
    · have hid2 : (r.request_id == request_id) = false := by
        simpa using hid
      simp only [ApprovalManager.reject_request, hid2, Bool.false_eq_true, if_false]
      exact List.Forall₂.cons (Or.inl rfl) ih

/-- Claim C1, amended: `get_pending_requests` and `get_approved_actions`
never change any request's status (the lists they leave behind are
sublists of the old list, elementwise identical); `approve_request` changes
a request's status only to `"approved"` (when unexpired) or `"expired"`
(when expired), and `reject_request` only to `"rejected"` — but neither
guards on the current status, so a request still in the pending list can
leave a terminal state (e.g. `approved → rejected`), contrary to the
original claim. -/
theorem approval_status_transition_characterization :
    ∀ (st : List ApprovalRequest) (now : Nat) (inc : Bool)
      (request_id reviewer : String) (comment : Option String),
      ((ApprovalManager.get_pending_requests st now inc).2.Sublist st)
      ∧ ((ApprovalManager.get_approved_actions st).2.Sublist st)
      ∧ List.Forall₂ (fun r r1 => r1 = r
            ∨ (r.is_expired now = true ∧ r1 = { r with status := "expired" })
            ∨ (r.is_expired now = false ∧ r1 = r.approve reviewer comment now))
          st (ApprovalManager.approve_request st now request_id reviewer comment).snd
      ∧ List.Forall₂ (fun r r1 => r1 = r ∨ r1 = r.reject reviewer comment now)
          st (ApprovalManager.reject_request st now request_id reviewer comment).snd := by
  intro st now inc request_id reviewer comment
  refine ⟨?_, ?_, ?_, ?_⟩
  · cases inc with
    | true => exact List.Sublist.refl st
    | false => exact List.filter_sublist st
  · exact List.filter_sublist st
  · exact approve_request_forall2 st now request_id reviewer comment
  · exact reject_request_forall2 st now request_id reviewer comment

/-- An action whose `action_type` is not one of the seven dispatchable
types. -/
def unknownAction : Action :=
  mkAction "do_magic" "low" "mystery" [] "r" Option.none "i" false 0

/-- Counterexample to claim C2 as stated: executing (not dry-run) an action
whose type has no handler returns a failure result but leaves the action's
status `"pending"` — not `"completed"` and not `"failed"`. -/
theorem execute_unknown_type_leaves_status :
    (ActionExecutor.execute false [] unknownAction (Except.error "unused") 0).2.1.status
      = "pending"
    ∧ ("pending" : String) ≠ "completed"
    ∧ ("pending" : String) ≠ "failed" := by
  refine ⟨rfl, by decide, by decide⟩

/-- Claim C2, amended: after a non-dry-run `execute`, the action's status is
`"completed"` or `"failed"` whenever its `action_type` is one of the seven
dispatchable types (an exception inside the handler gives `"failed"`); for
an unknown `action_type` the action — in particular its status — is left
unchanged and the returned result is a failure. -/
theorem execute_status_amended :
    ∀ (history : List HistoryEntry) (action : Action)
      (handler_outcome : Except String ExecutionResult) (now : Nat),
      (executor_map_types.contains action.action_type = true →
        ((ActionExecutor.execute false history action handler_outcome now).2.1.status
            = "completed"
         ∨ (ActionExecutor.execute false history action handler_outcome now).2.1.status
            = "failed"))
      ∧ (executor_map_types.contains action.action_type = false →
        (ActionExecutor.execute false history action handler_outcome now).2.1 = action
        ∧ (ActionExecutor.execute false history action handler_outcome now).1.success
            = false) := by
  intro history action handler_outcome now
  constructor
  · intro h
    have hm : action.action_type ∈ executor_map_types := by
      simpa using h
    match handler_outcome with
    | Except.ok result =>
      cases hs : result.success with
      | true =>
        left
        simp [ActionExecutor.execute, hm, hs]
      | false =>
        right
        simp [ActionExecutor.execute, hm, hs]
    | Except.error e =>
      right
      simp [ActionExecutor.execute, hm]
  · intro h
    have hm : action.action_type ∉ executor_map_types := by
      simpa using h
    constructor
    · simp [ActionExecutor.execute, hm]
    · simp [ActionExecutor.execute, hm]

/-- A successful handler outcome as `_execute_alert` would return it. -/
def handlerOk : ExecutionResult :=
  { success := true, message := "Alert sent via email", details := [],
    error := Option.none, timestamp := 0 }

/-- Witness for amended C2: executing a dispatchable action whose handler
returned success leaves its status `"completed"` or `"failed"`. -/
theorem execute_status_amended_witness :
    (ActionExecutor.execute false [] sampleAction (Except.ok handlerOk) 0).2.1.status
        = "completed"
    ∨ (ActionExecutor.execute false [] sampleAction (Except.ok handlerOk) 0).2.1.status
        = "failed" :=
  (execute_status_amended [] sampleAction (Except.ok handlerOk) 0).1 (by decide)

/-- Counterexample to claim C8 as stated: two distinct Action creations
(different `action_type` and `description`) within the same second (here
second 7) receive the same `action_id`. -/
theorem action_id_collision :
    (mkAction "send_alert" "low" "a" [] "r" Option.none "i" false 7).action_id
      = (mkAction "generate_report" "low" "b" [] "r" Option.none "i" false 7).action_id
    ∧ (mkAction "send_alert" "low" "a" [] "r" Option.none "i" false 7).action_type
      ≠ (mkAction "generate_report" "low" "b" [] "r" Option.none "i" false 7).action_type := by
  exact ⟨rfl, by decide⟩

/-- Claim C8, amended: `action_id` is injective in the creation second and
nothing else — two creations at distinct second-resolution timestamps get
distinct ids, while any two creations within the same second share one. -/
theorem action_id_unique_iff_distinct_second :
    ∀ (at1 rl1 d1 : String) (p1 : List (String × PyVal)) (re1 : String)
      (ri1 : Option Issue) (ei1 : String) (ra1 : Bool) (t1 : Nat)
      (at2 rl2 d2 : String) (p2 : List (String × PyVal)) (re2 : String)
      (ri2 : Option Issue) (ei2 : String) (ra2 : Bool) (t2 : Nat),
      (t1 ≠ t2 →
        (mkAction at1 rl1 d1 p1 re1 ri1 ei1 ra1 t1).action_id
          ≠ (mkAction at2 rl2 d2 p2 re2 ri2 ei2 ra2 t2).action_id)
      ∧ (t1 = t2 →
        (mkAction at1 rl1 d1 p1 re1 ri1 ei1 ra1 t1).action_id
          = (mkAction at2 rl2 d2 p2 re2 ri2 ei2 ra2 t2).action_id) := by
  intro at1 rl1 d1 p1 re1 ri1 ei1 ra1 t1 at2 rl2 d2 p2 re2 ri2 ei2 ra2 t2
  constructor
  · intro hne heq
    exact hne (stampOf_inj t1 t2 (string_append_left_cancel "ACT-" _ _ heq))
  · intro he
    simp [mkAction, he]

/-- Witness for amended C8: creations at seconds 7 and 8 get distinct ids. -/
theorem action_id_unique_iff_distinct_second_witness :
    (mkAction "send_alert" "low" "a" [] "r" Option.none "i" false 7).action_id
      ≠ (mkAction "send_alert" "low" "a" [] "r" Option.none "i" false 8).action_id :=
  (action_id_unique_iff_distinct_second "send_alert" "low" "a" [] "r" Option.none "i" false 7
    "send_alert" "low" "a" [] "r" Option.none "i" false 8).1 (by decide)

end MLPlatform
